import Mathlib

/-!
Shallow embedding of `src/system_monitor.py`: the sensor-text parser
(`SensorData._parse_sensors_output`), the history store
(`SensorData._update_histories`, deques with `maxlen = 60`), the update entry
point (`SensorData.update`), the left-padded read view produced in
`SystemMonitor._update_plot`, and the fan normalization in
`SystemMonitor._update_fan_indicators`.

Modeling choices:
* Python strings are `List Char`; Python dicts are insertion-ordered
  association lists (`dlookup` / `dinsert`).
* Python floats are exact rationals: every numeric value handled by the
  program is a decimal literal read from text, so `float("ip.fp")` is modeled
  as the exact rational `mkRat (ip * 10 ^ k + fp) (10 ^ k)`.
* The regexes of the source are compiled by hand into deterministic matchers.
  In every pattern of the source each `+`-quantified character class is
  followed by a character outside that class, so greedy maximal munch is the
  only possible match and `re.search` is exactly "leftmost position at which
  the maximal-munch matcher succeeds".
* The `sensors` subprocess call is an `Option Str` input to `update`: `none`
  models `subprocess.check_output` raising before any text is returned, in
  which case the `except` branch returns `False` with the object untouched.
-/

abbrev Str := List Char

/-- Whitespace as recognized by Python `str.strip()` and the regex class `\s`
(ASCII range, which is all the source's inputs use). -/
def isPySpace (c : Char) : Bool :=
  c == ' ' || c == '\t' || c == '\n' || c == '\r' || c == '\x0b' || c == '\x0c'

/-- Python `str.strip()` (line 72 of the source). -/
def strip (s : Str) : Str :=
  ((s.dropWhile isPySpace).reverse.dropWhile isPySpace).reverse

/-- Python `str.lower()` (the inputs are ASCII, where the two agree). -/
def lowerStr (s : Str) : Str := s.map Char.toLower

/-- Boolean prefix test. -/
def isPrefixOfB : Str → Str → Bool
  | [], _ => true
  | _ :: _, [] => false
  | a :: as, b :: bs => a == b && isPrefixOfB as bs

/-- Python's `pat in s`: contiguous substring test. -/
def containsB (pat : Str) : Str → Bool
  | [] => isPrefixOfB pat []
  | c :: rest => isPrefixOfB pat (c :: rest) || containsB pat rest

/-- Text before the first `':'`, i.e. `line.split(":", 1)[0]`. -/
def beforeColon (s : Str) : Str := s.takeWhile (fun c => !(c == ':'))

/-- Python `str.splitlines()` for `'\n'`-separated text (the source's inputs
come from `subprocess` with `universal_newlines=True`, so `'\n'` is the only
separator that occurs); a trailing final newline produces no extra line. -/
def splitlinesAux : Str → Str → List Str
  | [], acc => if acc.isEmpty then [] else [acc.reverse]
  | c :: rest, acc =>
    if c == '\n' then acc.reverse :: splitlinesAux rest []
    else splitlinesAux rest (c :: acc)

def splitlines (s : Str) : List Str := splitlinesAux s []

/-! ### Tokens appearing literally in the source -/

def coreTok : Str := "Core".toList
def coreSpaceTok : Str := "Core ".toList
def degCTok : Str := "°C".toList
def pkgIdTok : Str := "Package id".toList
def pkgIdSpaceTok : Str := "Package id ".toList
def pkgTok : Str := "Package".toList
def fanTok : Str := "fan".toList
def rpmTok : Str := "RPM".toList
def rpmSpaceTok : Str := " RPM".toList
def adapterColonTok : Str := "Adapter:".toList
def adapterWord : Str := "Adapter".toList
def nvmeTok : Str := "nvme".toList
def compositeColonTok : Str := "Composite:".toList
def compositeTok : Str := "Composite".toList
def tempTok : Str := "temp".toList
def unknownCtx : Str := "unknown".toList
def nvmeKey : Str := "NVMe".toList
def minClauseTok : Str := "(min".toList
def rpmCommaTok : Str := " RPM,".toList
def maxTok : Str := "max".toList
def rpmParenTok : Str := " RPM)".toList

/-! ### Hand-compiled regex matchers -/

/-- Value of a decimal digit string, e.g. `"2125" → 2125` (Python `int`). -/
def digitsVal (ds : Str) : Nat := ds.foldl (fun n c => 10 * n + (c.toNat - '0'.toNat)) 0

/-- Greedily consume `\d+`: one-or-more digits, maximal munch. -/
def takeDigits1 (s : Str) : Option (Str × Str) :=
  match s.takeWhile Char.isDigit with
  | [] => none
  | ds => some (ds, s.dropWhile Char.isDigit)

/-- Consume an exact literal. -/
def dropLit (pat s : Str) : Option Str :=
  if isPrefixOfB pat s then some (s.drop pat.length) else none

/-- Consume one exact character. -/
def dropChar (c : Char) : Str → Option Str
  | [] => none
  | x :: rest => if x == c then some rest else none

/-- Greedily consume `\s+`: one-or-more whitespace, maximal munch. -/
def dropWs1 (s : Str) : Option Str :=
  match s.takeWhile isPySpace with
  | [] => none
  | _ => some (s.dropWhile isPySpace)

/-- Python `float("ip.fp")` for strings captured by `(\d+\.\d+)`, as the exact
decimal rational (e.g. `decVal "45" "0" = 45`, `decVal "41" "5" = 41.5`). -/
def decVal (ip fp : Str) : Rat :=
  mkRat (digitsVal ip * 10 ^ fp.length + digitsVal fp) (10 ^ fp.length)

/-- Match `(Core \d+):\s+\+(\d+\.\d+)°C` (line 87) at the start of `s`,
returning (group 1, float(group 2)).  Note the sign is the literal `'+'`:
a `'-'`-signed value does not match. -/
def matchCoreAt (s : Str) : Option (Str × Rat) := do
  let r1 ← dropLit coreSpaceTok s
  let (ds, r2) ← takeDigits1 r1
  let r3 ← dropChar ':' r2
  let r4 ← dropWs1 r3
  let r5 ← dropChar '+' r4
  let (ip, r6) ← takeDigits1 r5
  let r7 ← dropChar '.' r6
  let (fp, r8) ← takeDigits1 r7
  let _ ← dropLit degCTok r8
  some (coreSpaceTok ++ ds, decVal ip fp)

/-- Match `(Package id \d+):\s+\+(\d+\.\d+)°C` (line 93) at the start of `s`. -/
def matchPackageAt (s : Str) : Option (Str × Rat) := do
  let r1 ← dropLit pkgIdSpaceTok s
  let (ds, r2) ← takeDigits1 r1
  let r3 ← dropChar ':' r2
  let r4 ← dropWs1 r3
  let r5 ← dropChar '+' r4
  let (ip, r6) ← takeDigits1 r5
  let r7 ← dropChar '.' r6
  let (fp, r8) ← takeDigits1 r7
  let _ ← dropLit degCTok r8
  some (pkgIdSpaceTok ++ ds, decVal ip fp)

/-- Match the optional group `\(min\s+=\s+\d+ RPM,\s+max\s+=\s+(\d+) RPM\)`
(line 101) at the start of `s`, returning the captured max RPM. -/
def matchMinMax (s : Str) : Option Nat := do
  let r1 ← dropLit minClauseTok s
  let r2 ← dropWs1 r1
  let r3 ← dropChar '=' r2
  let r4 ← dropWs1 r3
  let (_, r5) ← takeDigits1 r4
  let r6 ← dropLit rpmCommaTok r5
  let r7 ← dropWs1 r6
  let r8 ← dropLit maxTok r7
  let r9 ← dropWs1 r8
  let r10 ← dropChar '=' r9
  let r11 ← dropWs1 r10
  let (mx, r12) ← takeDigits1 r11
  let _ ← dropLit rpmParenTok r12
  some (digitsVal mx)

/-- Match `(fan\d+):\s+(\d+) RPM\s+(?:\(min\s+=\s+\d+ RPM,\s+max\s+=\s+(\d+) RPM\))?`
(line 101) at the start of `s`.  The `\s+` after `" RPM"` sits outside the
optional group, so it is mandatory: a stripped line ending right after `RPM`
does not match.  A missing or malformed max clause yields `none` for group 3
(the group is optional). -/
def matchFanAt (s : Str) : Option (Str × Nat × Option Nat) := do
  let r1 ← dropLit fanTok s
  let (ds, r2) ← takeDigits1 r1
  let r3 ← dropChar ':' r2
  let r4 ← dropWs1 r3
  let (sp, r5) ← takeDigits1 r4
  let r6 ← dropLit rpmSpaceTok r5
  let r7 ← dropWs1 r6
  some (fanTok ++ ds, digitsVal sp, matchMinMax r7)

/-- Match `Composite:\s+\+(\d+\.\d+)°C` (line 116) at the start of `s`. -/
def matchCompositeAt (s : Str) : Option Rat := do
  let r1 ← dropLit compositeColonTok s
  let r2 ← dropWs1 r1
  let r3 ← dropChar '+' r2
  let (ip, r4) ← takeDigits1 r3
  let r5 ← dropChar '.' r4
  let (fp, r6) ← takeDigits1 r5
  let _ ← dropLit degCTok r6
  some (decVal ip fp)

/-- Match `(temp\d+):\s+\+(\d+\.\d+)°C` (line 123) at the start of `s`. -/
def matchTempAt (s : Str) : Option (Str × Rat) := do
  let r1 ← dropLit tempTok s
  let (ds, r2) ← takeDigits1 r1
  let r3 ← dropChar ':' r2
  let r4 ← dropWs1 r3
  let r5 ← dropChar '+' r4
  let (ip, r6) ← takeDigits1 r5
  let r7 ← dropChar '.' r6
  let (fp, r8) ← takeDigits1 r7
  let _ ← dropLit degCTok r8
  some (tempTok ++ ds, decVal ip fp)

/-- `re.search`: try the position matcher at every index, leftmost first. -/
def searchPos {β : Type} (m : Str → Option β) : Str → Option β
  | [] => m []
  | c :: rest =>
    match m (c :: rest) with
    | some r => some r
    | none => searchPos m rest

def searchCore (s : Str) : Option (Str × Rat) := searchPos matchCoreAt s

def searchPackage (s : Str) : Option (Str × Rat) := searchPos matchPackageAt s

def searchFan (s : Str) : Option (Str × Nat × Option Nat) := searchPos matchFanAt s

def searchComposite (s : Str) : Option Rat := searchPos matchCompositeAt s

def searchTemp (s : Str) : Option (Str × Rat) := searchPos matchTempAt s

/-! ### Python dicts as insertion-ordered association lists -/

/-- Python dict lookup: `d.get(k)` / `k in d`. -/
def dlookup {α : Type} (k : Str) : List (Str × α) → Option α
  | [] => none
  | (k', v) :: rest => if k' = k then some v else dlookup k rest

/-- Python dict assignment `d[k] = v`: overwrite in place if present
(preserving insertion order), else append at the end. -/
def dinsert {α : Type} (k : Str) (v : α) : List (Str × α) → List (Str × α)
  | [] => [(k, v)]
  | (k', v') :: rest =>
    if k' = k then (k', v) :: rest else (k', v') :: dinsert k v rest

/-! ### The `SensorData` state -/

/-- `SensorData.max_data_points` (line 33). -/
def max_data_points : Nat := 60

/-- The mutable fields of `SensorData` (lines 28-42). -/
structure SensorState where
  cpu_temps : List (Str × Rat)
  fan_speeds : List (Str × Nat)
  storage_temps : List (Str × Rat)
  other_temps : List (Str × Rat)
  cpu_temp_history : List (Str × List Rat)
  fan_speed_history : List (Str × List Nat)
  storage_temp_history : List (Str × List Rat)
  other_temp_history : List (Str × List Rat)
  max_fan_speeds : List (Str × Nat)
deriving DecidableEq

/-- `SensorData.__init__`: all dicts empty. -/
def initialState : SensorState :=
  { cpu_temps := [], fan_speeds := [], storage_temps := [], other_temps := []
    cpu_temp_history := [], fan_speed_history := [], storage_temp_history := []
    other_temp_history := [], max_fan_speeds := [] }

/-- One iteration of the line loop of `_parse_sensors_output` (lines 71-126),
acting on the pair (current adapter, state).  The branch order is the if/elif
order of the source. -/
def parseStep (st : Str × SensorState) (rawLine : Str) : Str × SensorState :=
  let a := st.1
  let s := st.2
  let line := strip rawLine
  if line.isEmpty then (a, s)
  else if containsB adapterColonTok line then
    (strip (beforeColon line), s)
  else if containsB coreTok line && containsB degCTok line then
    match searchCore line with
    | some (core, t) => (a, { s with cpu_temps := dinsert core t s.cpu_temps })
    | none => (a, s)
  else if containsB pkgIdTok line && containsB degCTok line then
    match searchPackage line with
    | some (pkg, t) => (a, { s with cpu_temps := dinsert pkg t s.cpu_temps })
    | none => (a, s)
  else if containsB fanTok (lowerStr line) && containsB rpmTok line then
    match searchFan line with
    | some (fan, sp, mx) =>
      let s1 := { s with fan_speeds := dinsert fan sp s.fan_speeds }
      let s2 :=
        match mx with
        | some m => { s1 with max_fan_speeds := dinsert fan m s1.max_fan_speeds }
        | none =>
          if (dlookup fan s1.max_fan_speeds).isNone then
            { s1 with max_fan_speeds := dinsert fan 4000 s1.max_fan_speeds }
          else s1
      (a, s2)
    | none => (a, s)
  else if (!a.isEmpty) && containsB nvmeTok (lowerStr a)
      && containsB compositeTok line && containsB degCTok line then
    match searchComposite line with
    | some t => (a, { s with storage_temps := dinsert nvmeKey t s.storage_temps })
    | none => (a, s)
  else if containsB tempTok (lowerStr line) && containsB degCTok line
      && !containsB coreTok line && !containsB pkgTok line then
    match searchTemp line with
    | some (sensor, t) =>
      (a, { s with other_temps := dinsert (a ++ '_' :: sensor) t s.other_temps })
    | none => (a, s)
  else (a, s)

/-- Lines 66-69: the four current dicts are cleared before the line loop. -/
def clearCurrent (s : SensorState) : SensorState :=
  { s with cpu_temps := [], fan_speeds := [], storage_temps := [], other_temps := [] }

/-- `_parse_sensors_output` given the already-split line list: clear the
current dicts, then run the line loop starting from adapter `"unknown"`. -/
def parseLines (lines : List Str) (s : SensorState) : SensorState :=
  (lines.foldl parseStep (unknownCtx, clearCurrent s)).2

/-- `SensorData._parse_sensors_output` (lines 61-126). -/
def parseSensorsOutput (output : Str) (s : SensorState) : SensorState :=
  parseLines (splitlines output) s

/-- `deque(maxlen=60).append`: appends, evicting the oldest entry when full. -/
def appendBounded {α : Type} (h : List α) (v : α) : List α :=
  if h.length < max_data_points then h ++ [v] else h.drop 1 ++ [v]

/-- One step of `_update_histories` for one channel of one category:
`if key not in hist: hist[key] = deque(maxlen=60)` followed by
`hist[key].append(v)` (lines 131-134 and its three copies). -/
def ingestOne {α : Type} (hist : List (Str × List α)) (kv : Str × α) :
    List (Str × List α) :=
  let hist1 :=
    match dlookup kv.1 hist with
    | none => dinsert kv.1 [] hist
    | some _ => hist
  match dlookup kv.1 hist1 with
  | some h => dinsert kv.1 (appendBounded h kv.2) hist1
  | none => hist1

/-- The per-category loop of `_update_histories`: fold `ingestOne` over the
entries of the current snapshot dict, in insertion order. -/
def ingestHist {α : Type} (snap : List (Str × α)) (hist : List (Str × List α)) :
    List (Str × List α) :=
  snap.foldl ingestOne hist

/-- `SensorData._update_histories` (lines 128-152): each of the four
categories is reconciled independently. -/
def updateHistories (s : SensorState) : SensorState :=
  { s with
    cpu_temp_history := ingestHist s.cpu_temps s.cpu_temp_history
    fan_speed_history := ingestHist s.fan_speeds s.fan_speed_history
    storage_temp_history := ingestHist s.storage_temps s.storage_temp_history
    other_temp_history := ingestHist s.other_temps s.other_temp_history }

/-- `SensorData.update` (lines 44-59).  `none` models the `sensors` subprocess
raising before returning any text: the `except` branch returns `False` and no
field of the object has been touched.  On success the text is parsed, the
histories are updated, and the call returns `True`. -/
def update (raw : Option Str) (s : SensorState) : SensorState × Bool :=
  match raw with
  | none => (s, false)
  | some out => (updateHistories (parseSensorsOutput out s), true)

/-- A whole run: a sequence of ticks, each either a captured text or a failed
acquisition, starting from the freshly-constructed `SensorData`. -/
def runTicks (raws : List (Option Str)) : SensorState :=
  raws.foldl (fun s r => (update r s).1) initialState

/-- The per-channel series handed to the plot in `_update_plot` (lines
356-361): `data = list(queue); if len(data) < 60: data = [data[0]]*(60-len(data)) + data`.
For empty data Python would raise `IndexError` on `data[0]`; the store never
produces an empty history (see the invariant theorems), and the model returns
`[]` in that unreachable case. -/
def padSeries (data : List Rat) : List Rat :=
  if data.length < max_data_points then
    match data with
    | [] => []
    | v :: _ => List.replicate (max_data_points - data.length) v ++ data
  else data

/-- Lines 294-295 of `_update_fan_indicators`:
`max_speed = self.sensor_data.max_fan_speeds.get(fan, 4000)` and
`percentage = min(100, (speed / max_speed) * 100)`. -/
def fanPercent (s : SensorState) (fan : Str) (speed : Nat) : Rat :=
  min 100 (((speed : Rat) / (((dlookup fan s.max_fan_speeds).getD 4000 : Nat) : Rat)) * 100)

/-- The (fan, current RPM, percentage) triple displayed for each entry of
`fan_speeds`, in insertion order (lines 292-304). -/
def fanPercentages (s : SensorState) : List (Str × Nat × Rat) :=
  s.fan_speeds.map (fun kv => (kv.1, kv.2, fanPercent s kv.1 kv.2))

/-! ### Concrete inputs from the specification's scenarios -/

def corePlusLine : Str := "Core 0:        +45.0°C  (high = +80.0°C, crit = +100.0°C)".toList
def coreMinusLine : Str := "Core 0:        -45.0°C  (high = +80.0°C, crit = +100.0°C)".toList
def fan1Line : Str := "fan1:        2125 RPM  (min =    0 RPM, max = 3700 RPM)".toList
def fan1BareLine : Str := "fan1:        2125 RPM  (min =    0 RPM)".toList
def fan2Line : Str := "fan2:        1000 RPM".toList
def compositeLine : Str := "Composite:  +38.0°C".toList
def compositeLine2 : Str := "Composite:  +41.5°C".toList
def core0Key : Str := "Core 0".toList
def fan1Key : Str := "fan1".toList
def fan2Key : Str := "fan2".toList
def nvmeAdapterCtx : Str := "my nvme ctl".toList
def isaAdapterLine : Str := "Adapter: ISA adapter".toList
def nvmeChipLine : Str := "nvme ctl Adapter: PCI".toList


/-- Decidable form of "this line does not carry a max-RPM clause for `fan`":
either the line does not match the fan pattern at all, or it matches for a
different fan, or it matches for `fan` with the optional max group absent. -/
def lacksMaxClause (fan : Str) (ℓ : Str) : Bool :=
  match searchFan (strip ℓ) with
  | some (f, _, some _) => if f = fan then false else true
  | _ => true

/-! ### Dictionary lemmas -/

theorem dlookup_dinsert_self {α : Type} (k : Str) (v : α) (m : List (Str × α)) :
    dlookup k (dinsert k v m) = some v := by
  induction m with
  | nil => simp [dinsert, dlookup]
  | cons kv rest ih =>
    obtain ⟨k', v'⟩ := kv
    by_cases h : k' = k
    · simp [dinsert, dlookup, h]
    · simp [dinsert, dlookup, h, ih]

theorem dlookup_dinsert_ne {α : Type} {k k' : Str} (v : α) (m : List (Str × α))
    (h : k' ≠ k) : dlookup k (dinsert k' v m) = dlookup k m := by
  induction m with
  | nil => simp [dinsert, dlookup, h]
  | cons kv rest ih =>
    obtain ⟨k₁, v₁⟩ := kv
    simp only [dinsert]
    by_cases h₁ : k₁ = k'
    · subst h₁
      have hne : k₁ ≠ k := h
      rw [if_pos rfl]
      simp [dlookup, hne]
    · rw [if_neg h₁]
      by_cases h₂ : k₁ = k <;> simp [dlookup, h₂, ih]

theorem dlookup_eq_none {α : Type} {k : Str} {m : List (Str × α)}
    (h : dlookup k m = none) : ∀ kv ∈ m, kv.1 ≠ k := by
  induction m with
  | nil => simp
  | cons kv rest ih =>
    obtain ⟨k₁, v₁⟩ := kv
    by_cases h₁ : k₁ = k
    · simp [dlookup, h₁] at h
    · simp only [dlookup, h₁, if_false] at h
      intro kv hkv
      rcases List.mem_cons.mp hkv with rfl | hmem
      · exact h₁
      · exact ih h kv hmem

/-! ### `appendBounded` and `ingestOne` lemmas -/

theorem appendBounded_ne_nil {α : Type} (h : List α) (v : α) :
    appendBounded h v ≠ [] := by
  unfold appendBounded
  split <;> simp

theorem appendBounded_length_le {α : Type} (h : List α) (v : α)
    (hle : h.length ≤ max_data_points) :
    (appendBounded h v).length ≤ max_data_points := by
  unfold appendBounded
  split <;> (simp_all [max_data_points]; try omega)

/-- Master characterization of one `ingestOne` step: the touched key gets the
bounded append of its previous buffer (empty if absent); all other keys keep
their bindings. -/
theorem dlookup_ingestOne {α : Type} (hist : List (Str × List α)) (kv : Str × α)
    (kk : Str) :
    dlookup kk (ingestOne hist kv)
      = if kv.1 = kk then some (appendBounded ((dlookup kv.1 hist).getD []) kv.2)
        else dlookup kk hist := by
  obtain ⟨k, v⟩ := kv
  unfold ingestOne
  by_cases hk : dlookup k hist = none
  · simp only [hk]
    have h1 : dlookup k (dinsert k ([] : List α) hist) = some [] :=
      dlookup_dinsert_self k [] hist
    simp only [h1]
    by_cases hkk : k = kk
    · subst hkk
      simp [dlookup_dinsert_self, hk]
    · simp [hkk, dlookup_dinsert_ne _ _ hkk, dlookup_dinsert_ne ([] : List α) hist hkk]
  · obtain ⟨h0, hh0⟩ := Option.ne_none_iff_exists'.mp hk
    simp only [hh0]
    by_cases hkk : k = kk
    · subst hkk
      simp [dlookup_dinsert_self, hh0]
    · simp [hkk, dlookup_dinsert_ne _ _ hkk]

/-! ### `ingestHist` lemmas -/

theorem dlookup_ingestHist_absent {α : Type} (snap : List (Str × α))
    (hist : List (Str × List α)) (kk : Str) (h : ∀ kv ∈ snap, kv.1 ≠ kk) :
    dlookup kk (ingestHist snap hist) = dlookup kk hist := by
  induction snap generalizing hist with
  | nil => rfl
  | cons kv rest ih =>
    have hkv : kv.1 ≠ kk := h kv (List.mem_cons_self kv rest)
    have hrest : ∀ kv ∈ rest, kv.1 ≠ kk := fun kv hm => h kv (List.mem_cons_of_mem _ hm)
    show dlookup kk (ingestHist rest (ingestOne hist kv)) = dlookup kk hist
    rw [ih (ingestOne hist kv) hrest, dlookup_ingestOne, if_neg hkv]

theorem dlookup_ingestHist_present {α : Type} (snap : List (Str × α))
    (hist : List (Str × List α)) (kk : Str) (v : α)
    (hnd : (snap.map Prod.fst).Nodup) (hv : dlookup kk snap = some v) :
    dlookup kk (ingestHist snap hist)
      = some (appendBounded ((dlookup kk hist).getD []) v) := by
  induction snap generalizing hist with
  | nil => simp [dlookup] at hv
  | cons kv rest ih =>
    obtain ⟨k₁, v₁⟩ := kv
    simp only [List.map_cons, List.nodup_cons] at hnd
    by_cases hk : k₁ = kk
    · subst hk
      have hv' : v₁ = v := by simpa [dlookup] using hv
      subst hv'
      show dlookup k₁ (ingestHist rest (ingestOne hist (k₁, v₁))) = _
      have habs : ∀ kv ∈ rest, kv.1 ≠ k₁ := by
        intro kv hm heq
        exact hnd.1 (heq ▸ List.mem_map_of_mem Prod.fst hm)
      rw [dlookup_ingestHist_absent rest _ _ habs, dlookup_ingestOne, if_pos rfl]
    · simp only [dlookup, if_neg hk] at hv
      show dlookup kk (ingestHist rest (ingestOne hist (k₁, v₁))) = _
      rw [ih _ hnd.2 hv, dlookup_ingestOne]
      simp [hk]

theorem ingestHist_isSome_mono {α : Type} (snap : List (Str × α))
    (hist : List (Str × List α)) (kk : Str)
    (h : (dlookup kk hist).isSome = true) :
    (dlookup kk (ingestHist snap hist)).isSome = true := by
  induction snap generalizing hist with
  | nil => exact h
  | cons kv rest ih =>
    show (dlookup kk (ingestHist rest (ingestOne hist kv))).isSome = true
    apply ih
    rw [dlookup_ingestOne]
    split
    · rfl
    · exact h

theorem ingestHist_nonempty {α : Type} (snap : List (Str × α))
    (hist : List (Str × List α))
    (h : ∀ k hb, dlookup k hist = some hb → hb ≠ []) :
    ∀ k hb, dlookup k (ingestHist snap hist) = some hb → hb ≠ [] := by
  induction snap generalizing hist with
  | nil => exact h
  | cons kv rest ih =>
    refine ih (ingestOne hist kv) ?_
    intro k hb hk
    rw [dlookup_ingestOne] at hk
    split at hk
    · cases hk
      exact appendBounded_ne_nil _ _
    · exact h k hb hk

/-! ### Folding `appendBounded` over a value sequence -/

theorem foldl_appendBounded_eq {α : Type} (vs : List α) (acc : List α)
    (h : acc.length ≤ max_data_points) :
    vs.foldl appendBounded acc
      = (acc ++ vs).drop ((acc ++ vs).length - max_data_points) := by
  induction vs generalizing acc with
  | nil =>
    have h0 : acc.length - max_data_points = 0 := Nat.sub_eq_zero_of_le h
    simp [h0]
  | cons v vs ih =>
    show vs.foldl appendBounded (appendBounded acc v) = _
    by_cases hlt : acc.length < max_data_points
    · rw [show appendBounded acc v = acc ++ [v] from by
        unfold appendBounded; rw [if_pos hlt]]
      rw [ih (acc ++ [v]) (by simp; omega)]
      rw [show (acc ++ [v]) ++ vs = acc ++ v :: vs from by simp]
    · have hlen : acc.length = max_data_points := le_antisymm h (le_of_not_lt hlt)
      rw [show appendBounded acc v = acc.drop 1 ++ [v] from by
        unfold appendBounded; rw [if_neg hlt]]
      rw [ih (acc.drop 1 ++ [v]) (by simp [max_data_points] at *; omega)]
      rw [show (acc.drop 1 ++ [v]) ++ vs = acc.drop 1 ++ v :: vs from by simp]
      rw [List.drop_append_eq_append_drop, List.drop_append_eq_append_drop,
        List.drop_drop]
      congr 1
      · congr 1
        simp [hlen, max_data_points]
        omega
      · congr 1
        simp [hlen, max_data_points]
        omega

theorem dlookup_foldl_ingest {α : Type} (k : Str) (snaps : List (List (Str × α)))
    (hist : List (Str × List α))
    (h : ∀ snap ∈ snaps, (dlookup k snap).isSome = true ∧ (snap.map Prod.fst).Nodup) :
    (dlookup k (snaps.foldl (fun hh snap => ingestHist snap hh) hist)).getD []
      = (snaps.filterMap (dlookup k)).foldl appendBounded ((dlookup k hist).getD []) := by
  induction snaps generalizing hist with
  | nil => rfl
  | cons s rest ih =>
    obtain ⟨hs, hnd⟩ := h s (List.mem_cons_self s rest)
    obtain ⟨v, hv⟩ := Option.isSome_iff_exists.mp hs
    have hrest : ∀ snap ∈ rest, (dlookup k snap).isSome = true ∧ (snap.map Prod.fst).Nodup :=
      fun snap hm => h snap (List.mem_cons_of_mem _ hm)
    show (dlookup k (rest.foldl (fun hh snap => ingestHist snap hh) (ingestHist s hist))).getD []
        = _
    rw [ih (ingestHist s hist) hrest,
      dlookup_ingestHist_present s hist k v hnd hv]
    simp [List.filterMap_cons, hv]

theorem foldl_ingest_isSome_mono {α : Type} (k : Str) (snaps : List (List (Str × α)))
    (hist : List (Str × List α)) (h : (dlookup k hist).isSome = true) :
    (dlookup k (snaps.foldl (fun hh snap => ingestHist snap hh) hist)).isSome = true := by
  induction snaps generalizing hist with
  | nil => exact h
  | cons s rest ih => exact ih _ (ingestHist_isSome_mono s hist k h)

theorem filterMap_length_of_isSome {α β : Type} (f : α → Option β) (l : List α)
    (h : ∀ x ∈ l, (f x).isSome = true) : (l.filterMap f).length = l.length := by
  induction l with
  | nil => rfl
  | cons x rest ih =>
    obtain ⟨v, hv⟩ := Option.isSome_iff_exists.mp (h x (List.mem_cons_self x rest))
    simp [List.filterMap_cons, hv, ih (fun y hy => h y (List.mem_cons_of_mem _ hy))]

/-- C1.  Ring-buffer bound: run any sequence of snapshots through the history
reconciliation of `_update_histories` (the per-category updater `ingestHist`,
applied by `updateHistories` to each of the four categories), each snapshot
being a dict that contains channel `k`.  Then the channel's stored history has
length `min N 60`, never exceeds the capacity `max_data_points = 60`, and
equals exactly the last 60 appended values, oldest first, in append order. -/
theorem ring_buffer_bound {α : Type} (k : Str) (snaps : List (List (Str × α)))
    (h : ∀ snap ∈ snaps, (dlookup k snap).isSome = true ∧ (snap.map Prod.fst).Nodup) :
    ((dlookup k (snaps.foldl (fun hh snap => ingestHist snap hh) [])).getD []).length
        = min snaps.length max_data_points
    ∧ ((dlookup k (snaps.foldl (fun hh snap => ingestHist snap hh) [])).getD []).length
        ≤ max_data_points
    ∧ (dlookup k (snaps.foldl (fun hh snap => ingestHist snap hh) [])).getD []
        = (snaps.filterMap (dlookup k)).drop (snaps.length - max_data_points)
    ∧ (snaps ≠ [] →
        (dlookup k (snaps.foldl (fun hh snap => ingestHist snap hh) [])).isSome = true) := by
  have hvlen : (snaps.filterMap (dlookup k)).length = snaps.length :=
    filterMap_length_of_isSome _ _ (fun s hs => (h s hs).1)
  have hmain : (dlookup k (snaps.foldl (fun hh snap => ingestHist snap hh) [])).getD []
      = (snaps.filterMap (dlookup k)).drop (snaps.length - max_data_points) := by
    rw [dlookup_foldl_ingest k snaps [] h]
    have hacc : (dlookup k ([] : List (Str × List α))).getD [] = ([] : List α) := rfl
    rw [hacc, foldl_appendBounded_eq _ ([] : List α) (by simp)]
    simp [hvlen]
  refine ⟨?_, ?_, hmain, ?_⟩
  · rw [hmain, List.length_drop, hvlen]
    simp [max_data_points]
    omega
  · rw [hmain, List.length_drop, hvlen]
    simp [max_data_points]
    omega
  · intro hne
    match snaps, hne with
    | s :: rest, _ =>
      obtain ⟨hs, hnd⟩ := h s (List.mem_cons_self s rest)
      obtain ⟨v, hv⟩ := Option.isSome_iff_exists.mp hs
      show (dlookup k (rest.foldl (fun hh snap => ingestHist snap hh) (ingestHist s []))).isSome = true
      apply foldl_ingest_isSome_mono
      rw [dlookup_ingestHist_present s [] k v hnd hv]
      rfl

/-- Witness for C1 at a concrete two-snapshot run on a `Nat`-valued channel. -/
theorem ring_buffer_bound_witness :
    (∀ snap ∈ ([[(fan1Key, 1)], [(fan1Key, 2)]] : List (List (Str × Nat))),
        (dlookup fan1Key snap).isSome = true ∧ (snap.map Prod.fst).Nodup)
    ∧ (((dlookup fan1Key (([[(fan1Key, 1)], [(fan1Key, 2)]] : List (List (Str × Nat))).foldl
          (fun hh snap => ingestHist snap hh) [])).getD []).length
        = min ([[(fan1Key, 1)], [(fan1Key, 2)]] : List (List (Str × Nat))).length max_data_points
      ∧ ((dlookup fan1Key (([[(fan1Key, 1)], [(fan1Key, 2)]] : List (List (Str × Nat))).foldl
          (fun hh snap => ingestHist snap hh) [])).getD []).length ≤ max_data_points
      ∧ (dlookup fan1Key (([[(fan1Key, 1)], [(fan1Key, 2)]] : List (List (Str × Nat))).foldl
          (fun hh snap => ingestHist snap hh) [])).getD []
          = (([[(fan1Key, 1)], [(fan1Key, 2)]] : List (List (Str × Nat))).filterMap
              (dlookup fan1Key)).drop
              (([[(fan1Key, 1)], [(fan1Key, 2)]] : List (List (Str × Nat))).length - max_data_points)
      ∧ (([[(fan1Key, 1)], [(fan1Key, 2)]] : List (List (Str × Nat))) ≠ [] →
          (dlookup fan1Key (([[(fan1Key, 1)], [(fan1Key, 2)]] : List (List (Str × Nat))).foldl
            (fun hh snap => ingestHist snap hh) [])).isSome = true)) :=
  ⟨by decide, ring_buffer_bound fan1Key [[(fan1Key, 1)], [(fan1Key, 2)]] (by decide)⟩

/-- C5.  Channel persistence: a channel key that already holds a history keeps
exactly that history across any number of ingested snapshots omitting the key
(its buffer neither grows nor shrinks), and the set of keys holding a history
only ever grows (no key is ever deleted by ingestion). -/
theorem channel_persistence {α : Type} (k : Str) (hb : List α)
    (hist : List (Str × List α)) (snaps : List (List (Str × α)))
    (hk : dlookup k hist = some hb)
    (habs : ∀ snap ∈ snaps, dlookup k snap = none) :
    dlookup k (snaps.foldl (fun hh snap => ingestHist snap hh) hist) = some hb
    ∧ ∀ key : Str, (dlookup key hist).isSome = true →
        (dlookup key (snaps.foldl (fun hh snap => ingestHist snap hh) hist)).isSome = true := by
  constructor
  · induction snaps generalizing hist with
    | nil => exact hk
    | cons s rest ih =>
      have hs : dlookup k s = none := habs s (List.mem_cons_self s rest)
      have hstep : dlookup k (ingestHist s hist) = some hb := by
        rw [dlookup_ingestHist_absent s hist k (dlookup_eq_none hs), hk]
      exact ih (ingestHist s hist) hstep (fun snap hm => habs snap (List.mem_cons_of_mem _ hm))
  · intro key hkey
    exact foldl_ingest_isSome_mono key snaps hist hkey

/-- Witness for C5: `fan1`'s one-element history survives a snapshot that only
mentions `fan2`. -/
theorem channel_persistence_witness :
    dlookup fan1Key ([(fan1Key, [5])] : List (Str × List Nat)) = some [5]
    ∧ (∀ snap ∈ ([[(fan2Key, 7)]] : List (List (Str × Nat))), dlookup fan1Key snap = none)
    ∧ (dlookup fan1Key (([[(fan2Key, 7)]] : List (List (Str × Nat))).foldl
          (fun hh snap => ingestHist snap hh) [(fan1Key, [5])]) = some [5]
      ∧ ∀ key : Str, (dlookup key ([(fan1Key, [5])] : List (Str × List Nat))).isSome = true →
          (dlookup key (([[(fan2Key, 7)]] : List (List (Str × Nat))).foldl
            (fun hh snap => ingestHist snap hh) [(fan1Key, [5])])).isSome = true) :=
  ⟨by decide, by decide,
    channel_persistence fan1Key [5] [(fan1Key, [5])] [[(fan2Key, 7)]] (by decide) (by decide)⟩

/-- C2.  Left-pad correctness: a history currently holding `k` values
`v :: vs` with `0 < k < 60` is handed to the plot as a series of length
exactly 60 equal to the oldest stored value repeated `60 - k` times followed
by the stored values (lines 356-361 of the source: `[data[0]] * (60 - len(data)) + data`). -/
theorem left_pad_correct (v : Rat) (vs : List Rat)
    (h : (v :: vs).length < max_data_points) :
    (padSeries (v :: vs)).length = max_data_points
    ∧ padSeries (v :: vs)
        = List.replicate (max_data_points - (v :: vs).length) v ++ (v :: vs) := by
  refine ⟨?_, by unfold padSeries; rw [if_pos h]⟩
  simp only [padSeries, if_pos h]
  simp only [List.length_append, List.length_replicate, List.length_cons]
  simp only [List.length_cons, max_data_points] at h ⊢
  omega

/-- Witness for C2 on a one-element history. -/
theorem left_pad_correct_witness :
    (([(45 : Rat)] : List Rat).length < max_data_points)
    ∧ ((padSeries [(45 : Rat)]).length = max_data_points
      ∧ padSeries [(45 : Rat)]
          = List.replicate (max_data_points - ([(45 : Rat)] : List Rat).length) 45 ++ [(45 : Rat)]) :=
  ⟨by decide, left_pad_correct 45 [] (by decide)⟩

/-- C3.  Acquisition-failure atomicity: when the raw-text source fails before
returning any text (`update none`), the call reports `false` instead of
raising and the entire state — every history of every category, every
current-snapshot dict, and the learned fan capacities — is exactly the state
left by the previous tick. -/
theorem acquisition_failure_atomic (s : SensorState) :
    update none s = (s, false)
    ∧ (update none s).1.cpu_temp_history = s.cpu_temp_history
    ∧ (update none s).1.fan_speed_history = s.fan_speed_history
    ∧ (update none s).1.storage_temp_history = s.storage_temp_history
    ∧ (update none s).1.other_temp_history = s.other_temp_history
    ∧ (update none s).1.cpu_temps = s.cpu_temps
    ∧ (update none s).1.fan_speeds = s.fan_speeds
    ∧ (update none s).1.storage_temps = s.storage_temps
    ∧ (update none s).1.other_temps = s.other_temps
    ∧ (update none s).1.max_fan_speeds = s.max_fan_speeds
    ∧ (update none s).2 = false :=
  ⟨rfl, rfl, rfl, rfl, rfl, rfl, rfl, rfl, rfl, rfl, rfl⟩

/-! ### Branch analysis of `parseStep` -/

/-- No branch of the line loop touches any of the four history dicts. -/
theorem parseStep_histories (a : Str) (s : SensorState) (ℓ : Str) :
    (parseStep (a, s) ℓ).2.cpu_temp_history = s.cpu_temp_history
    ∧ (parseStep (a, s) ℓ).2.fan_speed_history = s.fan_speed_history
    ∧ (parseStep (a, s) ℓ).2.storage_temp_history = s.storage_temp_history
    ∧ (parseStep (a, s) ℓ).2.other_temp_history = s.other_temp_history := by
  unfold parseStep
  dsimp only
  refine ⟨?_, ?_, ?_, ?_⟩ <;> (repeat' split) <;> rfl

theorem containsB_ne_nil {pat s : Str} (hpat : pat ≠ []) (h : containsB pat s = true) :
    s.isEmpty = false := by
  cases s with
  | nil =>
    cases pat with
    | nil => exact absurd rfl hpat
    | cons c cs => simp [containsB, isPrefixOfB] at h
  | cons c cs => rfl

theorem isPrefixOfB_exists {pat s : Str} (h : isPrefixOfB pat s = true) :
    ∃ t, s = pat ++ t := by
  induction pat generalizing s with
  | nil => exact ⟨s, rfl⟩
  | cons a as ih =>
    cases s with
    | nil => simp [isPrefixOfB] at h
    | cons b bs =>
      simp only [isPrefixOfB, Bool.and_eq_true, beq_iff_eq] at h
      obtain ⟨rfl, hrest⟩ := h
      obtain ⟨t, ht⟩ := ih hrest
      exact ⟨t, by rw [ht]; rfl⟩

theorem beforeColon_adapterColonTok (rest : Str) :
    beforeColon (adapterColonTok ++ rest) = adapterWord := rfl

theorem strip_adapterWord : strip adapterWord = adapterWord := by decide

/-- A line containing `"Adapter:"` (after stripping) sets the adapter context
to the stripped text preceding the line's first colon; nothing else changes. -/
theorem parseStep_adapter_line (a : Str) (s : SensorState) (ℓ : Str)
    (h : containsB adapterColonTok (strip ℓ) = true) :
    parseStep (a, s) ℓ = (strip (beforeColon (strip ℓ)), s) := by
  have hne : (strip ℓ).isEmpty = false := containsB_ne_nil (by decide) h
  unfold parseStep
  dsimp only
  rw [if_neg (by rw [hne]; exact Bool.false_ne_true), if_pos h]

/-- A line not containing `"Adapter:"` (after stripping) leaves the adapter
context unchanged. -/
theorem parseStep_fst_other (a : Str) (s : SensorState) (ℓ : Str)
    (h : containsB adapterColonTok (strip ℓ) = false) :
    (parseStep (a, s) ℓ).1 = a := by
  unfold parseStep
  dsimp only
  repeat' split
  all_goals first | rfl | simp_all

/-- When the current adapter context does not contain `"nvme"`, no branch of
the line loop can write to `storage_temps`. -/
theorem parseStep_storage_no_nvme (a : Str) (s : SensorState) (ℓ : Str)
    (h : containsB nvmeTok (lowerStr a) = false) :
    (parseStep (a, s) ℓ).2.storage_temps = s.storage_temps := by
  unfold parseStep
  dsimp only
  repeat' split
  all_goals first | rfl | simp_all

/-- One line that does not carry a max-RPM clause for `fan` leaves `fan`'s
already-learned capacity untouched (lines 99-112: the `elif fan not in
self.max_fan_speeds` default assignment cannot fire for a fan already
present, and no other branch writes `max_fan_speeds`). -/
theorem parseStep_max_keep (a : Str) (s : SensorState) (ℓ : Str) (fan : Str) (cap : Nat)
    (hcap : dlookup fan s.max_fan_speeds = some cap)
    (hline : lacksMaxClause fan ℓ = true) :
    dlookup fan (parseStep (a, s) ℓ).2.max_fan_speeds = some cap := by
  unfold parseStep
  dsimp only
  split
  · exact hcap
  split
  · exact hcap
  split
  · split <;> exact hcap
  split
  · split <;> exact hcap
  split
  · split
    case isTrue.h_1 x f sp mx heq =>
      cases mx with
      | some m =>
        have hne : f ≠ fan := by
          intro hfe
          unfold lacksMaxClause at hline
          rw [heq, hfe] at hline
          simp at hline
        show dlookup fan (dinsert f m s.max_fan_speeds) = some cap
        rw [dlookup_dinsert_ne _ _ hne]
        exact hcap
      | none =>
        dsimp only
        split
        case isTrue hnone =>
          have hne : f ≠ fan := by
            intro hfe
            rw [hfe] at hnone
            rw [show dlookup fan ({ s with fan_speeds := dinsert fan sp s.fan_speeds } : SensorState).max_fan_speeds = some cap from hcap] at hnone
            simp at hnone
          show dlookup fan (dinsert f 4000 s.max_fan_speeds) = some cap
          rw [dlookup_dinsert_ne _ _ hne]
          exact hcap
        case isFalse => exact hcap
    case isTrue.h_2 => exact hcap
  split
  · split <;> exact hcap
  split
  · split <;> exact hcap
  · exact hcap

theorem foldl_parseStep_max_keep (lines : List Str) (st : Str × SensorState)
    (fan : Str) (cap : Nat)
    (hcap : dlookup fan st.2.max_fan_speeds = some cap)
    (hlines : ∀ ℓ ∈ lines, lacksMaxClause fan ℓ = true) :
    dlookup fan (lines.foldl parseStep st).2.max_fan_speeds = some cap := by
  induction lines generalizing st with
  | nil => exact hcap
  | cons ℓ rest ih =>
    have h1 : dlookup fan (parseStep st ℓ).2.max_fan_speeds = some cap :=
      parseStep_max_keep st.1 st.2 ℓ fan cap hcap (hlines ℓ (List.mem_cons_self ℓ rest))
    exact ih (parseStep st ℓ) h1 (fun ℓ' hm => hlines ℓ' (List.mem_cons_of_mem _ hm))

/-- C4.  Capacity retention: once a fan's capacity has been learned and is
stored in `max_fan_speeds`, parsing any later raw text in which that fan's
line lacks the max-RPM clause (or does not match the fan pattern at all)
leaves the stored capacity unchanged — it never reverts to the 4000 RPM
default. -/
theorem capacity_retention (s : SensorState) (fan : Str) (cap : Nat) (output : Str)
    (hcap : dlookup fan s.max_fan_speeds = some cap)
    (hlines : ∀ ℓ ∈ splitlines output, lacksMaxClause fan ℓ = true) :
    dlookup fan (parseSensorsOutput output s).max_fan_speeds = some cap := by
  unfold parseSensorsOutput parseLines
  exact foldl_parseStep_max_keep (splitlines output) (unknownCtx, clearCurrent s) fan cap hcap hlines

/-- Witness for C4: capacity 3700 learned for `fan1` survives a later snapshot
whose `fan1` line carries no max-RPM clause. -/
theorem capacity_retention_witness :
    dlookup fan1Key ({ initialState with max_fan_speeds := [(fan1Key, 3700)] } : SensorState).max_fan_speeds = some 3700
    ∧ (∀ ℓ ∈ splitlines fan1BareLine, lacksMaxClause fan1Key ℓ = true)
    ∧ dlookup fan1Key (parseSensorsOutput fan1BareLine
        { initialState with max_fan_speeds := [(fan1Key, 3700)] }).max_fan_speeds = some 3700 :=
  ⟨by decide, by decide,
    capacity_retention { initialState with max_fan_speeds := [(fan1Key, 3700)] }
      fan1Key 3700 fan1BareLine (by decide) (by decide)⟩

/-! ### Adapter-context invariant and storage emptiness (C9) -/

theorem containsB_of_isPrefixOfB {pat s : Str} (h : isPrefixOfB pat s = true) :
    containsB pat s = true := by
  cases s with
  | nil => unfold containsB; exact h
  | cons c cs => simp [containsB, h]

theorem foldl_parseStep_storage (lines : List Str) (st : Str × SensorState)
    (hstd : ∀ ℓ ∈ lines, containsB adapterColonTok (strip ℓ) = true →
        isPrefixOfB adapterColonTok (strip ℓ) = true)
    (hctx : containsB nvmeTok (lowerStr st.1) = false) :
    (lines.foldl parseStep st).2.storage_temps = st.2.storage_temps := by
  induction lines generalizing st with
  | nil => rfl
  | cons ℓ rest ih =>
    have hstep : (parseStep st ℓ).2.storage_temps = st.2.storage_temps :=
      parseStep_storage_no_nvme st.1 st.2 ℓ hctx
    have hctx' : containsB nvmeTok (lowerStr (parseStep st ℓ).1) = false := by
      by_cases hA : containsB adapterColonTok (strip ℓ) = true
      · obtain ⟨t, ht⟩ := isPrefixOfB_exists (hstd ℓ (List.mem_cons_self ℓ rest) hA)
        have hadapt := parseStep_adapter_line st.1 st.2 ℓ hA
        rw [show parseStep st ℓ = parseStep (st.1, st.2) ℓ from rfl, hadapt]
        dsimp only
        rw [ht, beforeColon_adapterColonTok, strip_adapterWord]
        decide
      · have hA' : containsB adapterColonTok (strip ℓ) = false :=
          Bool.not_eq_true _ ▸ Bool.of_not_eq_true hA
        rw [show (parseStep st ℓ).1 = st.1 from parseStep_fst_other st.1 st.2 ℓ hA']
        exact hctx
    have hrest := ih (parseStep st ℓ)
      (fun ℓ' hm h' => hstd ℓ' (List.mem_cons_of_mem _ hm) h') hctx'
    calc (List.foldl parseStep st (ℓ :: rest)).2.storage_temps
        = (List.foldl parseStep (parseStep st ℓ) rest).2.storage_temps := rfl
      _ = (parseStep st ℓ).2.storage_temps := hrest
      _ = st.2.storage_temps := hstep

/-- C9.  Adapter context comes from the text before the line's first colon:
for any line containing `"Adapter:"` the new context is
`strip(beforeColon(stripped line))`; consequently, when every adapter header
has the standard shape `Adapter: <description>` (so the stripped line begins
with `"Adapter:"`), each header sets the context to the literal `"Adapter"`,
which does not contain `"nvme"`, and parsing the whole text yields no
StorageTemperature sample at all. -/
theorem adapter_context_standard (lines : List Str) (s : SensorState)
    (hstd : ∀ ℓ ∈ lines, containsB adapterColonTok (strip ℓ) = true →
        isPrefixOfB adapterColonTok (strip ℓ) = true) :
    (∀ (ℓ a : Str) (s' : SensorState), containsB adapterColonTok (strip ℓ) = true →
        (parseStep (a, s') ℓ).1 = strip (beforeColon (strip ℓ)))
    ∧ (∀ (ℓ a : Str) (s' : SensorState), isPrefixOfB adapterColonTok (strip ℓ) = true →
        (parseStep (a, s') ℓ).1 = adapterWord)
    ∧ (parseLines lines s).storage_temps = [] := by
  refine ⟨?_, ?_, ?_⟩
  · intro ℓ a s' h
    rw [parseStep_adapter_line a s' ℓ h]
  · intro ℓ a s' h
    rw [parseStep_adapter_line a s' ℓ (containsB_of_isPrefixOfB h)]
    obtain ⟨t, ht⟩ := isPrefixOfB_exists h
    dsimp only
    rw [ht, beforeColon_adapterColonTok, strip_adapterWord]
  · show (lines.foldl parseStep (unknownCtx, clearCurrent s)).2.storage_temps = []
    have hu : containsB nvmeTok (lowerStr unknownCtx) = false := by decide
    rw [foldl_parseStep_storage lines (unknownCtx, clearCurrent s) hstd hu]
    rfl

/-- Witness for C9: a standard `Adapter: ISA adapter` header followed by a
well-formed Composite line still produces no storage sample. -/
theorem adapter_context_standard_witness :
    (∀ ℓ ∈ [isaAdapterLine, compositeLine], containsB adapterColonTok (strip ℓ) = true →
        isPrefixOfB adapterColonTok (strip ℓ) = true)
    ∧ (parseLines [isaAdapterLine, compositeLine] initialState).storage_temps = [] :=
  ⟨by decide,
    (adapter_context_standard [isaAdapterLine, compositeLine] initialState (by decide)).2.2⟩

/-! ### Parsing never touches histories; full-run non-emptiness (C10) -/

theorem foldl_parseStep_histories (lines : List Str) (st : Str × SensorState) :
    (lines.foldl parseStep st).2.cpu_temp_history = st.2.cpu_temp_history
    ∧ (lines.foldl parseStep st).2.fan_speed_history = st.2.fan_speed_history
    ∧ (lines.foldl parseStep st).2.storage_temp_history = st.2.storage_temp_history
    ∧ (lines.foldl parseStep st).2.other_temp_history = st.2.other_temp_history := by
  induction lines generalizing st with
  | nil => exact ⟨rfl, rfl, rfl, rfl⟩
  | cons ℓ rest ih =>
    have hstep := parseStep_histories st.1 st.2 ℓ
    have hrest := ih (parseStep st ℓ)
    exact ⟨hrest.1.trans hstep.1, hrest.2.1.trans hstep.2.1,
      hrest.2.2.1.trans hstep.2.2.1, hrest.2.2.2.trans hstep.2.2.2⟩

theorem parseSensorsOutput_histories (output : Str) (s : SensorState) :
    (parseSensorsOutput output s).cpu_temp_history = s.cpu_temp_history
    ∧ (parseSensorsOutput output s).fan_speed_history = s.fan_speed_history
    ∧ (parseSensorsOutput output s).storage_temp_history = s.storage_temp_history
    ∧ (parseSensorsOutput output s).other_temp_history = s.other_temp_history :=
  foldl_parseStep_histories (splitlines output) (unknownCtx, clearCurrent s)

theorem padSeries_of_ne_nil (hb : List Rat) (h : hb ≠ []) :
    padSeries hb = List.replicate (max_data_points - hb.length) (hb.headD 0) ++ hb
    ∨ padSeries hb = hb := by
  match hb, h with
  | v :: vs, _ =>
    unfold padSeries
    split
    · exact Or.inl rfl
    · exact Or.inr rfl

/-- The non-emptiness invariant carried by a whole run, stated over an
arbitrary start state. -/
theorem runFold_nonempty (raws : List (Option Str)) (s : SensorState)
    (h1 : ∀ k hb, dlookup k s.cpu_temp_history = some hb → hb ≠ [])
    (h2 : ∀ k hb, dlookup k s.fan_speed_history = some hb → hb ≠ [])
    (h3 : ∀ k hb, dlookup k s.storage_temp_history = some hb → hb ≠ [])
    (h4 : ∀ k hb, dlookup k s.other_temp_history = some hb → hb ≠ []) :
    (∀ k hb, dlookup k (raws.foldl (fun s' r => (update r s').1) s).cpu_temp_history = some hb → hb ≠ [])
    ∧ (∀ k hb, dlookup k (raws.foldl (fun s' r => (update r s').1) s).fan_speed_history = some hb → hb ≠ [])
    ∧ (∀ k hb, dlookup k (raws.foldl (fun s' r => (update r s').1) s).storage_temp_history = some hb → hb ≠ [])
    ∧ (∀ k hb, dlookup k (raws.foldl (fun s' r => (update r s').1) s).other_temp_history = some hb → hb ≠ []) := by
  induction raws generalizing s with
  | nil => exact ⟨h1, h2, h3, h4⟩
  | cons r rest ih =>
    cases r with
    | none => exact ih s h1 h2 h3 h4
    | some out =>
      have hp := parseSensorsOutput_histories out s
      refine ih (updateHistories (parseSensorsOutput out s)) ?_ ?_ ?_ ?_
      · intro k hb hk
        refine ingestHist_nonempty _ _ ?_ k hb hk
        rw [hp.1]
        exact h1
      · intro k hb hk
        refine ingestHist_nonempty _ _ ?_ k hb hk
        rw [hp.2.1]
        exact h2
      · intro k hb hk
        refine ingestHist_nonempty _ _ ?_ k hb hk
        rw [hp.2.2.1]
        exact h3
      · intro k hb hk
        refine ingestHist_nonempty _ _ ?_ k hb hk
        rw [hp.2.2.2]
        exact h4

/-- C10.  Every history the store ever holds is non-empty: a history is
created only in the ingest step that appends the channel's first value, so
after any run every key present in any of the four history dicts maps to a
non-empty buffer, and the left-padded read view replicates the genuine oldest
element (never the unreachable empty-case fallback). -/
theorem histories_nonempty (raws : List (Option Str)) :
    (∀ k hb, dlookup k (runTicks raws).cpu_temp_history = some hb → hb ≠ [])
    ∧ (∀ k hb, dlookup k (runTicks raws).fan_speed_history = some hb → hb ≠ [])
    ∧ (∀ k hb, dlookup k (runTicks raws).storage_temp_history = some hb → hb ≠ [])
    ∧ (∀ k hb, dlookup k (runTicks raws).other_temp_history = some hb → hb ≠ [])
    ∧ (∀ k hb, dlookup k (runTicks raws).cpu_temp_history = some hb →
        padSeries hb = List.replicate (max_data_points - hb.length) (hb.headD 0) ++ hb
        ∨ padSeries hb = hb) := by
  have hmain := runFold_nonempty raws initialState
    (by intro k hb hk; simp [initialState, dlookup] at hk)
    (by intro k hb hk; simp [initialState, dlookup] at hk)
    (by intro k hb hk; simp [initialState, dlookup] at hk)
    (by intro k hb hk; simp [initialState, dlookup] at hk)
  refine ⟨hmain.1, hmain.2.1, hmain.2.2.1, hmain.2.2.2, ?_⟩
  intro k hb hk
  exact padSeries_of_ne_nil hb (hmain.1 k hb hk)

/-- Witness for C10 on a one-tick run over the basic CPU scenario line. -/
theorem histories_nonempty_witness :
    dlookup core0Key (runTicks [some corePlusLine]).cpu_temp_history = some [(45 : Rat)]
    ∧ ([(45 : Rat)] : List Rat) ≠ [] :=
  ⟨by decide, (histories_nonempty [some corePlusLine]).1 core0Key [(45 : Rat)] (by decide)⟩

/-! ### CPU temperature sign handling (C6) -/

/-- C6 counterexample: the claim says a Core line with either sign `'+'` or
`'-'` yields one sample with the magnitude; but the source regex
`(Core \d+):\s+\+(\d+\.\d+)°C` demands a literal `'+'`, so the `'-'`-signed
line `Core 0:        -45.0°C  (high = +80.0°C, crit = +100.0°C)` produces no
CpuTemperature sample at all. -/
theorem cpu_minus_line_no_sample :
    (parseSensorsOutput coreMinusLine initialState).cpu_temps = [] := by decide

/-- C6 amended: only a `'+'`-signed Core line is recognized.  The spec's basic
scenario line yields exactly one sample keyed `"Core 0"` with value 45.0,
while the same line with a `'-'` sign yields no sample (its regex search
fails, and the line falls into no other branch). -/
theorem cpu_signed_parse_amended :
    (parseSensorsOutput corePlusLine initialState).cpu_temps = [(core0Key, (45 : Rat))]
    ∧ (parseSensorsOutput coreMinusLine initialState).cpu_temps = []
    ∧ searchCore coreMinusLine = none := by decide

/-! ### Storage gating (C8) -/

/-- Processing the scenario line `Composite:  +38.0°C` under an arbitrary
adapter context: it writes `storage_temps["NVMe"]` exactly when the context is
non-empty and contains `"nvme"` case-insensitively, and otherwise leaves
`storage_temps` untouched. -/
theorem parseStep_composite_cases (a : Str) (s : SensorState) :
    (parseStep (a, s) compositeLine).2.storage_temps
      = if (!a.isEmpty && containsB nvmeTok (lowerStr a)) = true
        then dinsert nvmeKey (mkRat 38 1) s.storage_temps
        else s.storage_temps := by
  by_cases hc : (!a.isEmpty && containsB nvmeTok (lowerStr a)) = true
  · rw [if_pos hc]
    unfold parseStep
    dsimp only
    rw [if_neg (by decide), if_neg (by decide), if_neg (by decide), if_neg (by decide),
      if_neg (by decide)]
    rw [hc]
    rw [if_pos (by decide)]
    rw [show searchComposite (strip compositeLine) = some (mkRat 38 1) from by decide]
  · rw [if_neg hc]
    have hnv : containsB nvmeTok (lowerStr a) = false := by
      cases hcb : containsB nvmeTok (lowerStr a) with
      | false => rfl
      | true =>
        exfalso
        apply hc
        have hne : a.isEmpty = false := by
          cases a with
          | nil => exact absurd hcb (by decide)
          | cons c cs => rfl
        rw [hne, hcb]
        rfl
    exact parseStep_storage_no_nvme a s compositeLine hnv

/-- C8.  Storage temperature gating: a well-formed Composite line produces a
StorageTemperature sample — keyed by the fixed, non-adapter-qualified label
`"NVMe"` — exactly when the current adapter context contains `"nvme"`
case-insensitively (under any other context it produces nothing), and two
matching Composite lines in one snapshot leave a single `"NVMe"` entry holding
the later value (41.5). -/
theorem storage_gating (a : Str) (s : SensorState) (hs : s.storage_temps = []) :
    ((parseStep (a, s) compositeLine).2.storage_temps
        = if containsB nvmeTok (lowerStr a) = true then [(nvmeKey, mkRat 38 1)] else [])
    ∧ (parseLines [nvmeChipLine, compositeLine, compositeLine2] initialState).storage_temps
        = [(nvmeKey, mkRat 83 2)] := by
  constructor
  · rw [parseStep_composite_cases a s]
    have hand : (!a.isEmpty && containsB nvmeTok (lowerStr a))
        = containsB nvmeTok (lowerStr a) := by
      cases a with
      | nil => decide
      | cons c cs => rw [show (c :: cs : Str).isEmpty = false from rfl]; rw [Bool.not_false, Bool.true_and]
    rw [hand, hs]
    by_cases h : containsB nvmeTok (lowerStr a) = true
    · rw [if_pos h, if_pos h]
      rfl
    · rw [if_neg h, if_neg h]
  · decide

/-- Witness for C8 under the nvme-containing context `"my nvme ctl"`. -/
theorem storage_gating_witness :
    initialState.storage_temps = []
    ∧ (((parseStep (nvmeAdapterCtx, initialState) compositeLine).2.storage_temps
        = if containsB nvmeTok (lowerStr nvmeAdapterCtx) = true
          then [(nvmeKey, mkRat 38 1)] else [])
      ∧ (parseLines [nvmeChipLine, compositeLine, compositeLine2] initialState).storage_temps
          = [(nvmeKey, mkRat 83 2)]) :=
  ⟨rfl, storage_gating nvmeAdapterCtx initialState rfl⟩

/-! ### Fan normalization (C7) -/

/-- C7 counterexample: the claim's scenario says the line
`fan2:        1000 RPM` (a fan "first seen" this way) yields a displayed
percentage of 25.0; but the stripped line ends right after `RPM`, while the
source regex requires `\s+` after `" RPM"` outside the optional group, so the
line matches nothing: no `fan2` sample exists and no indicator (hence no
percentage) is displayed at all. -/
theorem fan_bare_line_no_indicator :
    (parseSensorsOutput fan2Line initialState).fan_speeds = []
    ∧ fanPercentages (parseSensorsOutput fan2Line initialState) = []
    ∧ searchFan fan2Line = none := by decide

/-- C7 amended: the displayed percentage is
`min(100, rawRPM / capacity * 100)` with capacity the learned value when one
is stored and 4000 otherwise; a raw reading of 1000 under the 4000 default
gives 25.0, and after parsing the full `fan1` line (speed 2125, learned
capacity 3700) the percentage is `2125/37 ≈ 57.4`.  However, the literal line
`fan2:        1000 RPM` does not match the fan pattern (the pattern requires
whitespace after `" RPM"`), so it produces no fan sample and no displayed
percentage. -/
theorem fan_normalization_amended :
    (∀ (s : SensorState) (fan : Str) (speed cap : Nat),
        dlookup fan s.max_fan_speeds = some cap →
        fanPercent s fan speed = min 100 ((speed : Rat) / (cap : Rat) * 100))
    ∧ (∀ (s : SensorState) (fan : Str) (speed : Nat),
        dlookup fan s.max_fan_speeds = none →
        fanPercent s fan speed = min 100 ((speed : Rat) / 4000 * 100))
    ∧ fanPercent initialState fan2Key 1000 = 25
    ∧ dlookup fan1Key (parseSensorsOutput fan1Line initialState).fan_speeds = some 2125
    ∧ dlookup fan1Key (parseSensorsOutput fan1Line initialState).max_fan_speeds = some 3700
    ∧ fanPercent (parseSensorsOutput fan1Line initialState) fan1Key 2125 = 2125 / 37
    ∧ (574 : Rat) / 10 ≤ 2125 / 37
    ∧ (2125 : Rat) / 37 < 575 / 10
    ∧ (parseSensorsOutput fan2Line initialState).fan_speeds = [] := by
  refine ⟨?_, ?_, ?_, by decide, by decide, ?_, by norm_num, by norm_num, by decide⟩
  · intro s fan speed cap h
    unfold fanPercent
    rw [h, Option.getD_some]
  · intro s fan speed h
    unfold fanPercent
    rw [h]
    norm_num
  · have h0 : dlookup fan2Key initialState.max_fan_speeds = none := rfl
    unfold fanPercent
    rw [h0]
    rw [min_def]
    norm_num
  · have h5 : dlookup fan1Key (parseSensorsOutput fan1Line initialState).max_fan_speeds
        = some 3700 := by decide
    unfold fanPercent
    rw [h5]
    rw [min_def]
    norm_num

/-- Witness for C7's amended statement: its learned-capacity formula applied
after parsing the full `fan1` line. -/
theorem fan_normalization_amended_witness :
    dlookup fan1Key (parseSensorsOutput fan1Line initialState).max_fan_speeds = some 3700
    ∧ fanPercent (parseSensorsOutput fan1Line initialState) fan1Key 2125
        = min 100 (((2125 : Nat) : Rat) / ((3700 : Nat) : Rat) * 100) :=
  ⟨by decide,
    fan_normalization_amended.1 (parseSensorsOutput fan1Line initialState)
      fan1Key 2125 3700 (by decide)⟩
